import Mathlib

/-!
Verification of the tablist2 client-side engine: a shallow embedding of the
Group State Store, the Ordering/Index Utility, the event-reconciliation
handlers, the drag-and-drop commit logic, the group fold operations, the
hex-color normalizer and the keyboard-navigation duplicate-event guard,
together with proofs of the behavioural properties stated for them.

Numeric object keys of the JavaScript group-state object are modelled as an
association list with unique keys; DOM element collections are modelled as
lists in document order; functions that throw are modelled with Except.
-/

/-! ## Group State Store (GroupManager.groupStates)

The store is a JavaScript object mapping a numeric group id to a collapsed
boolean.  An association list with at most one entry per key models it; the
operations below model property lookup, the `in` operator, property
assignment and `delete`. -/

/-- Association-list model of the group-state object: group id to collapsed flag. -/
abbrev GroupStates := List (Nat × Bool)

/-- Property read on the group-state object: the value stored at a group id. -/
def statesLookup (groupId : Nat) : GroupStates → Option Bool
  | [] => none
  | p :: rest => if p.1 = groupId then some p.2 else statesLookup groupId rest

/-- Model of the JavaScript `in` operator on the group-state object. -/
def statesHasKey (groupId : Nat) (gs : GroupStates) : Bool :=
  (statesLookup groupId gs).isSome

/-- Property assignment on the group-state object: overwrite the entry for
the key if present, otherwise add one. -/
def statesSet (groupId : Nat) (b : Bool) : GroupStates → GroupStates
  | [] => [(groupId, b)]
  | p :: rest => if p.1 = groupId then (groupId, b) :: rest else p :: statesSet groupId b rest

/-- Model of the JavaScript `delete` operator on the group-state object. -/
def statesDelete (groupId : Nat) : GroupStates → GroupStates
  | [] => []
  | p :: rest => if p.1 = groupId then rest else p :: statesDelete groupId rest

/-! ## GroupManager.isCollapsed

Source (GroupManager): throws "Unexpected!" when the group id has no entry,
otherwise returns the stored boolean.  The method only reads the store; the
returned second component is the (unchanged) store, making the frame
condition explicit. -/

/-- Model of GroupManager.isCollapsed: programming-error signal on an unknown
group id, otherwise the stored collapsed boolean; the store is returned
unchanged. -/
def isCollapsed (gs : GroupStates) (groupId : Nat) : Except String Bool × GroupStates :=
  match statesLookup groupId gs with
  | none => (Except.error "Unexpected!", gs)
  | some b => (Except.ok b, gs)

/-! ## EventListenerManager.handleGroupCreated and handleGroupRemoved

Both handlers first drop events for other windows, then touch the store and
schedule the debounced re-render (the returned Bool).  handleGroupCreated
adds a default-expanded entry only when the id is absent.
handleGroupRemoved guards its delete with the same absence test, so the
delete is a no-op in every case. -/

/-- Model of EventListenerManager.handleGroupCreated: for the current window,
insert a default entry (collapsed = false) only when the group id has no
entry yet, then schedule the debounced re-render. -/
def handleGroupCreated (curWinId winId groupId : Nat) (gs : GroupStates) :
    GroupStates × Bool :=
  if winId ≠ curWinId then (gs, false)
  else
    ((if ¬ statesHasKey groupId gs then statesSet groupId false gs else gs), true)

/-- Model of EventListenerManager.handleGroupRemoved: for the current window,
the source deletes the entry only under the guard that the group id is NOT
in the store (the same guard handleGroupCreated uses), then schedules the
debounced re-render. -/
def handleGroupRemoved (curWinId winId groupId : Nat) (gs : GroupStates) :
    GroupStates × Bool :=
  if winId ≠ curWinId then (gs, false)
  else
    ((if ¬ statesHasKey groupId gs then statesDelete groupId gs else gs), true)

/-! ## Drag engine state and tab-moved reconciliation

DragDropManager.dragState carries the self-caused suppression list
(tabIdsInMove) and the manager carries the global suppressOnMoved flag.
EventListenerManager.handleTabMoved consults both; the returned Bool records
whether the debounced full re-render was scheduled. -/

/-- Drag-engine state read and written by the moved-event handler:
the self-caused suppression list and the global suppress flag. -/
structure ReconState where
  tabIdsInMove : List Nat
  suppressOnMoved : Bool
deriving DecidableEq, Repr

/-- Model of EventListenerManager.handleTabMoved: events for another window
are dropped; an id on the suppression list is spliced out (first occurrence,
as Array.prototype.splice at indexOf) with no re-render; with the global
suppress flag set the event is ignored; otherwise the debounced re-render is
scheduled (the Bool result). -/
def handleTabMoved (curWinId winId tabId : Nat) (st : ReconState) : ReconState × Bool :=
  if winId ≠ curWinId then (st, false)
  else if st.tabIdsInMove.length ≠ 0 then
    let idx := st.tabIdsInMove.indexOf tabId
    if idx < st.tabIdsInMove.length then
      ({ st with tabIdsInMove := st.tabIdsInMove.eraseIdx idx }, false)
    else if st.suppressOnMoved then (st, false)
    else (st, true)
  else if st.suppressOnMoved then (st, false)
  else (st, true)

/-- Browser group-move call emitted by a group drop. -/
structure GroupMoveCall where
  groupId : Nat
  index : Nat
deriving DecidableEq, Repr

/-- Model of DragDropManager.handleGroupDrop: record the ids of every tab
line inside the dropped group as the suppression list, then (when the parsed
group id and the first tab's document position are available) emit the
browser group-move call. -/
def handleGroupDrop (groupId : Option Nat) (groupTabIds : List Nat)
    (firstTabIndex : Option Nat) (st : ReconState) : ReconState × List GroupMoveCall :=
  match groupId, firstTabIndex with
  | some g, some i => ({ st with tabIdsInMove := groupTabIds }, [{ groupId := g, index := i }])
  | some _, none => ({ st with tabIdsInMove := groupTabIds }, [])
  | none, _ => ({ st with tabIdsInMove := groupTabIds }, [])

/-- Folds handleTabMoved over a sequence of moved-events for the current
window, counting how many of them scheduled a re-render. -/
def processMovedEvents (curWinId : Nat) (events : List Nat) (st : ReconState) :
    ReconState × Nat :=
  events.foldl
    (fun acc tabId =>
      let step := handleTabMoved curWinId curWinId tabId acc.1
      (step.1, acc.2 + (if step.2 then 1 else 0)))
    (st, 0)

/-! ## Tab drop commit (DragDropManager.handleDrop / handleTabDrop)

The rendered document order of tab lines is modelled as the list of their
tab ids.  At commit the dragged line is inserted before the placeholder
(DOM insertBefore); handleTabDrop then reads the line's new document
position among all tab lines and emits the browser tab-move call targeting
it, setting the global suppress flag.  The asynchronous group-membership
reconciliation in the move callback is outside the scope of this model. -/

/-- Insertion of an element at a position of a list, modelling DOM
insertBefore at that child position (append when the position is past the
end). -/
def insertAt {α : Type} : Nat → α → List α → List α
  | _, a, [] => [a]
  | 0, a, l => a :: l
  | n + 1, a, x :: xs => x :: insertAt n a xs

/-- Browser tab-move call emitted by a tab drop. -/
structure TabMoveCall where
  tabId : Nat
  index : Nat
deriving DecidableEq, Repr

/-- Outcome of a committed single-tab drop: the document order of tab lines
after the DOM edit, the emitted browser move calls, and the global suppress
flag. -/
structure TabDropOutcome where
  dom : List Nat
  moves : List TabMoveCall
  suppressOnMoved : Bool
deriving DecidableEq, Repr

/-- Model of a committed single-tab drop: the dragged line is moved to the
placeholder's position (DOM insertBefore), then handleTabDrop emits the
browser move call targeting the line's new document position and sets the
global suppress flag. -/
def commitTabDrop (dom : List Nat) (tabId : Nat) (dropPos : Nat) : TabDropOutcome :=
  { dom := insertAt dropPos tabId (dom.erase tabId),
    moves := [{ tabId := tabId,
                index := (insertAt dropPos tabId (dom.erase tabId)).indexOf tabId }],
    suppressOnMoved := true }

/-! ## Group fold operations (GroupManager.expandGroup / collapseGroup)

The group container is modelled by its collapsed CSS class and its content
element; the content element carries the inline max-height style (empty
string when unset), its natural scroll height (constant in this model: the
content's children do not change during a fold), and its child tab lines'
tabindex attributes. -/

/-- Child tab line of a group content element, reduced to its tabindex attribute. -/
structure TabLineEl where
  tabindexAttr : String
deriving DecidableEq, Repr

/-- Group content element: inline max-height style, natural scroll height,
child tab lines. -/
structure GroupContentEl where
  maxHeight : String
  scrollHeight : Nat
  tabLines : List TabLineEl
deriving DecidableEq, Repr

/-- Group container element: collapsed CSS class plus content element. -/
structure GroupContainerEl where
  collapsedClass : Bool
  content : GroupContentEl
deriving DecidableEq, Repr

/-- Model of GroupManager.expandGroup: record the expanded state, set the
content's max-height to its scroll height plus a 100px margin, drop the
collapsed class, and restore tabindex 0 on every child tab line. -/
def expandGroup (gs : GroupStates) (gc : GroupContainerEl) (groupId : Nat) :
    GroupStates × GroupContainerEl :=
  (statesSet groupId false gs,
   { collapsedClass := false,
     content :=
       { maxHeight := toString (gc.content.scrollHeight + 100) ++ "px",
         scrollHeight := gc.content.scrollHeight,
         tabLines := gc.content.tabLines.map (fun _tl => { tabindexAttr := "0" }) } })

/-- Model of GroupManager.collapseGroup: record the collapsed state, pin the
content's max-height to its scroll height when no max-height is set (empty
style) or it is "none", add the collapsed class, and set tabindex -1 on
every child tab line. -/
def collapseGroup (gs : GroupStates) (gc : GroupContainerEl) (groupId : Nat) :
    GroupStates × GroupContainerEl :=
  (statesSet groupId true gs,
   { collapsedClass := true,
     content :=
       { maxHeight :=
           if gc.content.maxHeight = "" ∨ gc.content.maxHeight = "none" then
             toString gc.content.scrollHeight ++ "px"
           else gc.content.maxHeight,
         scrollHeight := gc.content.scrollHeight,
         tabLines := gc.content.tabLines.map (fun _tl => { tabindexAttr := "-1" }) } })

/-! ## Ordering/Index Utility (utils.updateDomIndices)

The list container is modelled as the flat list of the relevant elements in
document order (querySelectorAll returns elements in document order
regardless of nesting).  Each element carries its kind (tab line with the
data-container class, group header with the tab-group-header class, or
anything else), its data-tab-index dataset value, and its tabindex
attribute. -/

/-- Kind of a rendered element as the utility distinguishes them. -/
inductive ElemKind
  | tabLine
  | groupHeader
  | other
deriving DecidableEq, Repr

/-- Rendered element: kind, data-tab-index dataset value, tabindex attribute. -/
structure DomElem where
  kind : ElemKind
  dataTabIndex : Option String
  tabindexAttr : Option String
deriving DecidableEq, Repr

/-- Boolean test for tab lines (elements with the data-container class). -/
def isTabLine (e : DomElem) : Bool := e.kind == ElemKind.tabLine

/-- First pass of updateDomIndices: stamp each tab line's data-tab-index
with its running position among tab lines, starting from the given counter. -/
def stampTabIndices : Nat → List DomElem → List DomElem
  | _, [] => []
  | i, e :: rest =>
    if e.kind = ElemKind.tabLine then
      { e with dataTabIndex := some (toString i) } :: stampTabIndices (i + 1) rest
    else
      e :: stampTabIndices i rest

/-- Update applied by the second pass to a single element: group headers get
tabindex 0, everything else is untouched. -/
def headerFocusStep (e : DomElem) : DomElem :=
  if e.kind = ElemKind.groupHeader then { e with tabindexAttr := some "0" } else e

/-- Second pass of updateDomIndices: set tabindex 0 on every group header. -/
def setHeaderFocusable (l : List DomElem) : List DomElem :=
  l.map headerFocusStep

/-- Model of utils.updateDomIndices: renumber every tab line's
data-tab-index in document order, then make every group header
keyboard-focusable. -/
def updateDomIndices (container : List DomElem) : List DomElem :=
  setHeaderFocusable (stampTabIndices 0 container)

/-- Structural DOM mutation on the list container. -/
inductive DomOp
  | append (e : DomElem)
  | insertBefore (pos : Nat) (e : DomElem)
  | remove (pos : Nat)

/-- Applies one structural DOM mutation. -/
def applyOp (l : List DomElem) : DomOp → List DomElem
  | DomOp.append e => l ++ [e]
  | DomOp.insertBefore pos e => insertAt pos e l
  | DomOp.remove pos => l.eraseIdx pos

/-- Applies a sequence of structural DOM mutations. -/
def applyOps (l : List DomElem) (ops : List DomOp) : List DomElem :=
  ops.foldl applyOp l

/-! ## Hex color normalization (utils.normalizeHexRGB)

Strings are processed as their character lists.  JavaScript's trim and
toUpperCase are modelled at the ASCII level (the only characters relevant
to hex color codes); the regular expression from the source,
optional '#' followed by exactly 3 or exactly 6 characters of [0-9A-F],
is modelled by hexPatternTest. -/

/-- ASCII model of the whitespace class removed by String.prototype.trim:
space (32), tab (9), line feed (10), carriage return (13), vertical tab
(11) and form feed (12). -/
def isJsSpace (c : Char) : Bool :=
  c.toNat == 32 || c.toNat == 9 || c.toNat == 10 || c.toNat == 13 ||
    c.toNat == 11 || c.toNat == 12

/-- Model of String.prototype.trim: drop whitespace from both ends. -/
def jsTrim (cs : List Char) : List Char :=
  ((cs.dropWhile isJsSpace).reverse.dropWhile isJsSpace).reverse

/-- ASCII model of String.prototype.toUpperCase: map codes 97-122 (a-z) down
by 32 to A-Z, leave everything else unchanged. -/
def jsToUpper (c : Char) : Char :=
  if 97 ≤ c.toNat ∧ c.toNat ≤ 122 then Char.ofNat (c.toNat - 32) else c

/-- Character class [0-9A-F] of the source's hex pattern: codes 48-57 are
the digits, 65-70 are A-F. -/
def isHexUpperDigit (c : Char) : Bool :=
  (48 ≤ c.toNat && c.toNat ≤ 57) || (65 ≤ c.toNat && c.toNat ≤ 70)

/-- Case-insensitive hex digit: [0-9A-Fa-f]; codes 97-102 are a-f. -/
def isHexDigitCI (c : Char) : Bool :=
  (48 ≤ c.toNat && c.toNat ≤ 57) || (65 ≤ c.toNat && c.toNat ≤ 70) ||
    (97 ≤ c.toNat && c.toNat ≤ 102)

/-- Strip one optional leading '#', as the pattern's "#?" and the source's
startsWith-slice step both do. -/
def hexBody (cs : List Char) : List Char :=
  match cs with
  | [] => []
  | c :: rest => if c = '#' then rest else c :: rest

/-- Model of the source's test of the anchored pattern: optional '#'
followed by exactly 3 or exactly 6 characters of [0-9A-F]. -/
def hexPatternTest (cs : List Char) : Bool :=
  decide ((hexBody cs).length = 3 ∨ (hexBody cs).length = 6) &&
    (hexBody cs).all isHexUpperDigit

/-- Specification-side predicate for the claims: the string is a 3- or
6-digit hex RGB string (either case) with an optional leading '#'. -/
def isHexRGBString (s : String) : Bool :=
  decide ((hexBody s.toList).length = 3 ∨ (hexBody s.toList).length = 6) &&
    (hexBody s.toList).all isHexDigitCI

/-- Model of the 3-digit expansion step: split, map each character to its
doubling, join. -/
def doubleChars (cs : List Char) : List Char :=
  cs.flatMap (fun c => [c, c])

/-- Fuel-bounded model of the source's while loop that doubles the string
until its length reaches 6 (the loop is unreachable after the pattern test,
 which leaves only bodies of length 3, expanded to 6, or of length 6). -/
def growHex : Nat → List Char → List Char
  | 0, cs => cs
  | n + 1, cs => if cs.length < 6 then growHex n (cs ++ cs) else cs

/-- Expansion step of the source: a 3-character body has each character
doubled, anything else is left as is. -/
def hexExpand3 (cs : List Char) : List Char :=
  if cs.length = 3 then doubleChars cs else cs

/-- Padding step of the source: when the body is still shorter than 6
characters it is doubled until long enough and cut to 6 (unreachable after
the pattern test, kept for fidelity). -/
def hexPad (cs : List Char) : List Char :=
  if cs.length < 6 then (growHex 6 cs).take 6 else cs

/-- Model of utils.normalizeHexRGB: trim and uppercase, reject anything that
fails the hex pattern with a validation error, strip the optional '#',
expand a 3-digit body by doubling each digit, run the (unreachable)
length-padding loop, and return the body prefixed with '#'. -/
def normalizeHexRGB (text : String) : Except String String :=
  if hexPatternTest ((jsTrim text.toList).map jsToUpper) then
    Except.ok (String.mk
      ('#' :: hexPad (hexExpand3 (hexBody ((jsTrim text.toList).map jsToUpper)))))
  else
    Except.error "Input must be a valid hex RGB color (3 or 6 characters)"

/-! ## Keyboard navigation duplicate-event guard
(TabManager.setupKeyboardNavigation)

The container keydown listener first requires the focused element to be
inside the container, then drops any event whose timestamp equals the
recorded last timestamp (an observed platform quirk delivers the same event
twice), records the new timestamp, and only then dispatches on the key.
The listener's DOM reads are captured in a snapshot; its DOM effects are
modelled as an action list (console logging is not an action). -/

/-- Keyboard event fields the listener reads. -/
structure NavKeyEvent where
  timeStamp : Nat
  key : String
  shiftKey : Bool
deriving DecidableEq, Repr

/-- DOM effect performed by the keydown listener. -/
inductive NavAction
  | removeFaviconTabindex
  | focusTabLine
  | openTabOptions (line : Nat)
  | focusFirstOption
  | closeTabOptions (line : Nat)
  | setFaviconTabindex
  | focusFavicon
  | focusElem (idx : Nat)
deriving DecidableEq, Repr

/-- Snapshot of everything the keydown listener reads from the DOM:
whether the focused element is inside the container, the focused element's
closest tab line (by tab id), whether a favicon ancestor currently carries a
tabindex attribute, whether the focused line exposes a first option control,
the line whose options menu is open, the focused option control's line, a
favicon child of the focused element, and the focusable elements (their
count and the focused element's position among them, none when absent). -/
structure NavDomSnapshot where
  activeInContainer : Bool
  activeTabLine : Option Nat
  faviconAncestorWithTabindex : Bool
  lineHasFirstOption : Bool
  currentOpenTabLine : Option Nat
  activeOptionLine : Option Nat
  activeHasFaviconChild : Bool
  focusablesCount : Nat
  activeFocusablesIdx : Option Nat
deriving DecidableEq, Repr

/-- Key dispatch of the listener, entered only after the duplicate-timestamp
guard: ArrowRight enters the line's option controls (or returns focus from a
focused favicon), ArrowLeft leaves them (or focuses a favicon child), and
Shift+ArrowUp/ArrowDown moves focus circularly through the focusable
elements. -/
def navDispatch (dom : NavDomSnapshot) (e : NavKeyEvent) : List NavAction :=
  if e.key = "ArrowRight" then
    if dom.faviconAncestorWithTabindex then
      NavAction.removeFaviconTabindex ::
        (if dom.activeTabLine.isSome then [NavAction.focusTabLine] else [])
    else
      match dom.activeTabLine with
      | some line =>
        NavAction.openTabOptions line ::
          (if dom.lineHasFirstOption then [NavAction.focusFirstOption] else [])
      | none => []
  else if e.key = "ArrowLeft" then
    match dom.currentOpenTabLine with
    | some _ =>
      match dom.activeOptionLine with
      | some line => [NavAction.closeTabOptions line, NavAction.focusTabLine]
      | none => []
    | none =>
      if dom.activeHasFaviconChild then
        [NavAction.setFaviconTabindex, NavAction.focusFavicon]
      else []
  else if ¬ e.shiftKey ∨ (e.key ≠ "ArrowUp" ∧ e.key ≠ "ArrowDown") then []
  else
    match dom.activeFocusablesIdx with
    | none => []
    | some ci =>
      let newIdx :=
        if e.key = "ArrowUp" then (ci + dom.focusablesCount - 1) % dom.focusablesCount
        else (ci + 1) % dom.focusablesCount
      [NavAction.focusElem newIdx]

/-- Model of the container keydown listener: return untouched when focus is
outside the container; drop the event (no actions, timestamp kept) when its
timestamp equals the recorded one; otherwise record the timestamp and
dispatch. -/
def handleNavKeydown (lastTimestamp : Nat) (dom : NavDomSnapshot) (e : NavKeyEvent) :
    Nat × List NavAction :=
  if ¬ dom.activeInContainer then (lastTimestamp, [])
  else if lastTimestamp = e.timeStamp then (lastTimestamp, [])
  else (e.timeStamp, navDispatch dom e)

/-! ## Supporting lemmas and claim theorems -/

theorem statesLookup_statesSet_self (groupId : Nat) (b : Bool) (gs : GroupStates) :
    statesLookup groupId (statesSet groupId b gs) = some b := by
  induction gs with
  | nil => simp [statesSet, statesLookup]
  | cons p rest ih =>
    by_cases h : p.1 = groupId
    · simp [statesSet, statesLookup, h]
    · simp [statesSet, statesLookup, h, ih]

theorem statesDelete_of_not_hasKey (groupId : Nat) (gs : GroupStates)
    (h : statesHasKey groupId gs = false) : statesDelete groupId gs = gs := by
  induction gs with
  | nil => rfl
  | cons p rest ih =>
    unfold statesHasKey statesLookup at h
    by_cases hp : p.1 = groupId
    · simp [hp] at h
    · simp [statesDelete, hp]
      exact ih (by simpa [statesHasKey, hp] using h)

theorem handleTabMoved_mem (curWinId : Nat) (st : ReconState) (tabId : Nat)
    (h : tabId ∈ st.tabIdsInMove) :
    handleTabMoved curWinId curWinId tabId st =
      ({ st with tabIdsInMove := st.tabIdsInMove.erase tabId }, false) := by
  have hlen : st.tabIdsInMove.length ≠ 0 := by
    intro h0
    rw [List.length_eq_zero] at h0
    simp [h0] at h
  have hidx : st.tabIdsInMove.indexOf tabId < st.tabIdsInMove.length :=
    List.indexOf_lt_length.mpr h
  unfold handleTabMoved
  rw [if_neg (by omega : ¬ curWinId ≠ curWinId), if_pos hlen, if_pos hidx,
    List.eraseIdx_indexOf_eq_erase]

theorem processMovedEvents_swallows_aux (curWinId : Nat) :
    ∀ (ids : List Nat) (suppress : Bool) (k : Nat),
      List.foldl
        (fun acc tabId =>
          let step := handleTabMoved curWinId curWinId tabId acc.1
          (step.1, acc.2 + (if step.2 then 1 else 0)))
        (({ tabIdsInMove := ids, suppressOnMoved := suppress } : ReconState), k) ids =
      (({ tabIdsInMove := [], suppressOnMoved := suppress } : ReconState), k) := by
  intro ids
  induction ids with
  | nil => intro suppress k; rfl
  | cons x xs ih =>
    intro suppress k
    have hstep :
        handleTabMoved curWinId curWinId x
          ({ tabIdsInMove := x :: xs, suppressOnMoved := suppress } : ReconState) =
          (({ tabIdsInMove := xs, suppressOnMoved := suppress } : ReconState), false) := by
      have h := handleTabMoved_mem curWinId
        ({ tabIdsInMove := x :: xs, suppressOnMoved := suppress } : ReconState) x
        (by simp)
      simpa [List.erase_cons_head] using h
    simp only [List.foldl_cons, hstep]
    simpa using ih suppress k

theorem insertAt_indexOf_erase {a : Nat} :
    ∀ l : List Nat, a ∈ l → insertAt (l.indexOf a) a (l.erase a) = l := by
  intro l
  induction l with
  | nil => intro h; simp at h
  | cons x xs ih =>
    intro h
    by_cases hx : x = a
    · subst hx
      simp [List.indexOf_cons_self, List.erase_cons_head, insertAt]
      cases xs <;> rfl
    · have hmem : a ∈ xs := by
        rcases List.mem_cons.mp h with h1 | h1
        · exact absurd h1.symm hx
        · exact h1
      have hne : (x == a) = false := beq_false_of_ne hx
      rw [List.indexOf_cons, hne, List.erase_cons_tail]
      · simp only [cond_false]
        show insertAt (xs.indexOf a + 1) a (x :: xs.erase a) = x :: xs
        rw [insertAt, ih hmem]
      · simp [hne]

theorem headerFocusStep_kind (e : DomElem) : (headerFocusStep e).kind = e.kind := by
  unfold headerFocusStep
  by_cases h : e.kind = ElemKind.groupHeader <;> simp [h]

theorem headerFocusStep_dataTabIndex (e : DomElem) :
    (headerFocusStep e).dataTabIndex = e.dataTabIndex := by
  unfold headerFocusStep
  by_cases h : e.kind = ElemKind.groupHeader <;> simp [h]

theorem isTabLine_headerFocusStep (e : DomElem) :
    isTabLine (headerFocusStep e) = isTabLine e := by
  unfold isTabLine
  rw [headerFocusStep_kind]

theorem stampTabIndices_get? :
    ∀ (l : List DomElem) (k i : Nat) (el : DomElem),
      (stampTabIndices k l).get? i = some el → el.kind = ElemKind.tabLine →
      el.dataTabIndex =
        some (toString (k + ((stampTabIndices k l).take i).countP isTabLine)) := by
  intro l
  induction l with
  | nil => intro k i el h; simp [stampTabIndices] at h
  | cons e rest ih =>
    intro k i el h hkind
    by_cases he : e.kind = ElemKind.tabLine
    · simp only [stampTabIndices, if_pos he] at h ⊢
      match i with
      | 0 =>
        simp only [List.get?_cons_zero, Option.some.injEq] at h
        subst h
        simp
      | j + 1 =>
        simp only [List.get?_cons_succ] at h
        have hx := ih (k + 1) j el h hkind
        have hcount :
            ((({ e with dataTabIndex := some (toString k) } : DomElem) ::
                stampTabIndices (k + 1) rest).take (j + 1)).countP isTabLine =
              ((stampTabIndices (k + 1) rest).take j).countP isTabLine + 1 := by
          rw [List.take_succ_cons, List.countP_cons]
          simp [isTabLine, he]
        rw [hcount]
        have harith :
            k + 1 + ((stampTabIndices (k + 1) rest).take j).countP isTabLine =
              k + (((stampTabIndices (k + 1) rest).take j).countP isTabLine + 1) := by
          omega
        rw [hx, harith]
    · simp only [stampTabIndices, if_neg he] at h ⊢
      match i with
      | 0 =>
        simp only [List.get?_cons_zero, Option.some.injEq] at h
        subst h
        exact absurd hkind he
      | j + 1 =>
        simp only [List.get?_cons_succ] at h
        have hx := ih k j el h hkind
        have hcount :
            ((e :: stampTabIndices k rest).take (j + 1)).countP isTabLine =
              ((stampTabIndices k rest).take j).countP isTabLine := by
          rw [List.take_succ_cons, List.countP_cons]
          simp [isTabLine, he]
        rw [hcount]
        exact hx

theorem headerFocusStep_idem (e : DomElem) :
    headerFocusStep (headerFocusStep e) = headerFocusStep e := by
  unfold headerFocusStep
  by_cases h : e.kind = ElemKind.groupHeader <;> simp [h]

theorem stampTabIndices_stamp :
    ∀ (l : List DomElem) (k : Nat),
      stampTabIndices k (stampTabIndices k l) = stampTabIndices k l := by
  intro l
  induction l with
  | nil => intro k; rfl
  | cons e rest ih =>
    intro k
    by_cases he : e.kind = ElemKind.tabLine
    · simp only [stampTabIndices, if_pos he]
      rw [ih (k + 1)]
    · simp only [stampTabIndices, if_neg he]
      rw [ih k]

theorem stampTabIndices_map_headerFocusStep :
    ∀ (l : List DomElem) (k : Nat),
      stampTabIndices k (l.map headerFocusStep) =
        (stampTabIndices k l).map headerFocusStep := by
  intro l
  induction l with
  | nil => intro k; rfl
  | cons e rest ih =>
    intro k
    by_cases he : e.kind = ElemKind.tabLine
    · simp only [List.map_cons, stampTabIndices]
      rw [if_pos (by rw [headerFocusStep_kind]; exact he), if_pos he]
      rw [List.map_cons, ih (k + 1)]
      have hstep :
          ({ headerFocusStep e with dataTabIndex := some (toString k) } : DomElem) =
            headerFocusStep { e with dataTabIndex := some (toString k) } := by
        unfold headerFocusStep
        simp [he]
      rw [hstep]
    · simp only [List.map_cons, stampTabIndices]
      rw [if_neg (by rw [headerFocusStep_kind]; exact he), if_neg he]
      rw [List.map_cons, ih k]

theorem updateDomIndices_idem (l : List DomElem) :
    updateDomIndices (updateDomIndices l) = updateDomIndices l := by
  unfold updateDomIndices setHeaderFocusable
  rw [stampTabIndices_map_headerFocusStep, stampTabIndices_stamp, List.map_map]
  have hcomp : headerFocusStep ∘ headerFocusStep = headerFocusStep :=
    funext headerFocusStep_idem
  rw [hcomp]

theorem toNat_charOfNat_of_lt (n : Nat) (h : n < 55296) : (Char.ofNat n).toNat = n := by
  have hv : n.isValidChar := Or.inl h
  unfold Char.ofNat
  rw [dif_pos hv]
  unfold Char.ofNatAux
  simp [Char.toNat, UInt32.toNat]

theorem jsToUpper_toNat_of_lower (c : Char) (h : 97 ≤ c.toNat ∧ c.toNat ≤ 122) :
    (jsToUpper c).toNat = c.toNat - 32 := by
  unfold jsToUpper
  rw [if_pos h]
  exact toNat_charOfNat_of_lt (c.toNat - 32) (by omega)

theorem jsToUpper_toNat_of_not_lower (c : Char) (h : ¬ (97 ≤ c.toNat ∧ c.toNat ≤ 122)) :
    (jsToUpper c).toNat = c.toNat := by
  unfold jsToUpper
  rw [if_neg h]

theorem jsToUpper_eq_hash_iff (c : Char) : jsToUpper c = '#' ↔ c = '#' := by
  constructor
  · intro h
    by_cases hl : 97 ≤ c.toNat ∧ c.toNat ≤ 122
    · have := jsToUpper_toNat_of_lower c hl
      rw [h] at this
      have hh : ('#' : Char).toNat = 35 := by decide
      omega
    · unfold jsToUpper at h
      rw [if_neg hl] at h
      exact h
  · intro h
    subst h
    decide

theorem isHexUpperDigit_jsToUpper (c : Char) :
    isHexUpperDigit (jsToUpper c) = isHexDigitCI c := by
  by_cases hl : 97 ≤ c.toNat ∧ c.toNat ≤ 122
  · have ht := jsToUpper_toNat_of_lower c hl
    unfold isHexUpperDigit isHexDigitCI
    rw [ht]
    rw [Bool.eq_iff_iff]
    simp only [Bool.or_eq_true, Bool.and_eq_true, decide_eq_true_eq]
    omega
  · have ht := jsToUpper_toNat_of_not_lower c hl
    unfold isHexUpperDigit isHexDigitCI
    rw [ht]
    rw [Bool.eq_iff_iff]
    simp only [Bool.or_eq_true, Bool.and_eq_true, decide_eq_true_eq]
    omega

theorem jsToUpper_of_isHexUpperDigit (c : Char) (h : isHexUpperDigit c = true) :
    jsToUpper c = c := by
  unfold isHexUpperDigit at h
  simp only [Bool.or_eq_true, Bool.and_eq_true, decide_eq_true_eq] at h
  unfold jsToUpper
  rw [if_neg (by omega)]

theorem isJsSpace_false_of_isHexDigitCI (c : Char) (h : isHexDigitCI c = true) :
    isJsSpace c = false := by
  unfold isHexDigitCI at h
  simp only [Bool.or_eq_true, Bool.and_eq_true, decide_eq_true_eq] at h
  unfold isJsSpace
  simp only [Bool.or_eq_false_iff, beq_eq_false_iff_ne, ne_eq]
  omega

theorem isJsSpace_false_of_isHexUpperDigit (c : Char) (h : isHexUpperDigit c = true) :
    isJsSpace c = false := by
  apply isJsSpace_false_of_isHexDigitCI
  unfold isHexUpperDigit at h
  unfold isHexDigitCI
  simp only [Bool.or_eq_true, Bool.and_eq_true, decide_eq_true_eq] at h ⊢
  omega

theorem isJsSpace_hash : isJsSpace '#' = false := by decide

theorem dropWhile_eq_self_of_all_false {p : Char → Bool} :
    ∀ l : List Char, (∀ c ∈ l, p c = false) → l.dropWhile p = l := by
  intro l h
  cases l with
  | nil => rfl
  | cons c rest =>
    rw [List.dropWhile_cons]
    rw [h c (by simp)]
    simp

theorem jsTrim_eq_self (cs : List Char) (h : ∀ c ∈ cs, isJsSpace c = false) :
    jsTrim cs = cs := by
  unfold jsTrim
  rw [dropWhile_eq_self_of_all_false cs h]
  rw [dropWhile_eq_self_of_all_false cs.reverse (fun c hc => h c (List.mem_reverse.mp hc))]
  exact List.reverse_reverse cs

theorem hexBody_map_jsToUpper (cs : List Char) :
    hexBody (cs.map jsToUpper) = (hexBody cs).map jsToUpper := by
  cases cs with
  | nil => rfl
  | cons c rest =>
    by_cases hc : c = '#'
    · subst hc
      simp [hexBody, jsToUpper_eq_hash_iff]
    · have hup : ¬ jsToUpper c = '#' := fun hh => hc ((jsToUpper_eq_hash_iff c).mp hh)
      simp [hexBody, hc, hup]

theorem hexPatternTest_map_jsToUpper (cs : List Char) :
    hexPatternTest (cs.map jsToUpper) =
      (decide ((hexBody cs).length = 3 ∨ (hexBody cs).length = 6) &&
        (hexBody cs).all isHexDigitCI) := by
  unfold hexPatternTest
  rw [hexBody_map_jsToUpper, List.length_map, List.all_map]
  have hcomp : (isHexUpperDigit ∘ jsToUpper) = isHexDigitCI :=
    funext isHexUpperDigit_jsToUpper
  rw [hcomp]

theorem isHexRGBString_mk (cs : List Char) :
    isHexRGBString (String.mk cs) =
      (decide ((hexBody cs).length = 3 ∨ (hexBody cs).length = 6) &&
        (hexBody cs).all isHexDigitCI) := rfl

theorem doubleChars_length (cs : List Char) :
    (doubleChars cs).length = 2 * cs.length := by
  induction cs with
  | nil => rfl
  | cons c rest ih =>
    simp only [doubleChars, List.flatMap_cons] at ih ⊢
    simp [ih]
    omega

theorem doubleChars_all {p : Char → Bool} (cs : List Char) (h : cs.all p = true) :
    (doubleChars cs).all p = true := by
  induction cs with
  | nil => rfl
  | cons c rest ih =>
    simp only [List.all_cons, Bool.and_eq_true] at h
    simp only [doubleChars, List.flatMap_cons, List.all_append, List.all_cons] at ih ⊢
    simp [h.1, ih h.2]

theorem map_jsToUpper_eq_self (cs : List Char) (h : cs.all isHexUpperDigit = true) :
    cs.map jsToUpper = cs := by
  induction cs with
  | nil => rfl
  | cons c rest ih =>
    simp only [List.all_cons, Bool.and_eq_true] at h
    rw [List.map_cons, jsToUpper_of_isHexUpperDigit c h.1, ih h.2]

theorem nonspace_of_hex_shape (cs : List Char)
    (hall : (hexBody cs).all isHexDigitCI = true) :
    ∀ c ∈ cs, isJsSpace c = false := by
  cases cs with
  | nil => intro c hc; simp at hc
  | cons x rest =>
    intro c hc
    by_cases hx : x = '#'
    · subst hx
      rcases List.mem_cons.mp hc with h1 | h1
      · subst h1; exact isJsSpace_hash
      · simp only [hexBody, if_pos rfl] at hall
        exact isJsSpace_false_of_isHexDigitCI c (List.all_eq_true.mp hall c h1)
    · simp only [hexBody, if_neg hx] at hall
      exact isJsSpace_false_of_isHexDigitCI c (List.all_eq_true.mp hall c hc)

theorem countP_isTabLine_map_headerFocusStep (l : List DomElem) :
    (l.map headerFocusStep).countP isTabLine = l.countP isTabLine := by
  rw [List.countP_map]
  have hcomp : (isTabLine ∘ headerFocusStep) = isTabLine :=
    funext isTabLine_headerFocusStep
  rw [hcomp]

theorem updateDomIndices_get? (l : List DomElem) (i : Nat) (el : DomElem)
    (h : (updateDomIndices l).get? i = some el) (hkind : el.kind = ElemKind.tabLine) :
    el.dataTabIndex =
      some (toString (((updateDomIndices l).take i).countP isTabLine)) := by
  unfold updateDomIndices setHeaderFocusable at h ⊢
  rw [List.get?_map] at h
  cases hstamp : (stampTabIndices 0 l).get? i with
  | none => rw [hstamp] at h; simp at h
  | some el0 =>
    rw [hstamp] at h
    have hel : el = headerFocusStep el0 := by
      simpa using h.symm
    subst hel
    have hk0 : el0.kind = ElemKind.tabLine := by
      rw [headerFocusStep_kind] at hkind
      exact hkind
    have hx := stampTabIndices_get? l 0 i el0 hstamp hk0
    rw [headerFocusStep_dataTabIndex, hx]
    have hcount :
        (((stampTabIndices 0 l).map headerFocusStep).take i).countP isTabLine =
          ((stampTabIndices 0 l).take i).countP isTabLine := by
      rw [(List.map_take headerFocusStep (stampTabIndices 0 l) i).symm]
      exact countP_isTabLine_map_headerFocusStep ((stampTabIndices 0 l).take i)
    rw [hcount]
    simp

theorem updateDomIndices_headers (l : List DomElem) (el : DomElem)
    (h : el ∈ updateDomIndices l) (hkind : el.kind = ElemKind.groupHeader) :
    el.tabindexAttr = some "0" := by
  unfold updateDomIndices setHeaderFocusable at h
  rcases List.mem_map.mp h with ⟨el0, _, hel⟩
  subst hel
  unfold headerFocusStep at hkind ⊢
  by_cases h0 : el0.kind = ElemKind.groupHeader
  · simp [h0]
  · rw [if_neg h0] at hkind
    exact absurd hkind h0

theorem jsToUpper_hash : jsToUpper '#' = '#' := by decide

theorem normalizeHexRGB_ok_shape (s : String) (h : isHexRGBString s = true) :
    ∃ b : List Char,
      normalizeHexRGB s = Except.ok (String.mk ('#' :: b)) ∧
        b.length = 6 ∧ b.all isHexUpperDigit = true := by
  have hparts := h
  unfold isHexRGBString at hparts
  rw [Bool.and_eq_true] at hparts
  have hlen := of_decide_eq_true hparts.1
  have hall := hparts.2
  have hns : ∀ c ∈ s.toList, isJsSpace c = false :=
    nonspace_of_hex_shape s.toList hall
  have htrim : jsTrim s.toList = s.toList := jsTrim_eq_self s.toList hns
  have hpt : hexPatternTest ((jsTrim s.toList).map jsToUpper) = true := by
    rw [htrim, hexPatternTest_map_jsToUpper]
    exact h
  have hup :
      ((hexBody s.toList).map jsToUpper).all isHexUpperDigit = true := by
    rw [List.all_map]
    have hcomp : (isHexUpperDigit ∘ jsToUpper) = isHexDigitCI :=
      funext isHexUpperDigit_jsToUpper
    rw [hcomp]
    exact hall
  rw [htrim] at hpt
  unfold normalizeHexRGB
  rw [htrim, if_pos hpt, hexBody_map_jsToUpper]
  rcases hlen with h3 | h6
  · refine ⟨doubleChars ((hexBody s.toList).map jsToUpper), ?_, ?_, ?_⟩
    · unfold hexPad hexExpand3
      rw [if_pos (show ((hexBody s.toList).map jsToUpper).length = 3 by
        rw [List.length_map]; exact h3)]
      rw [if_neg (show ¬ (doubleChars ((hexBody s.toList).map jsToUpper)).length < 6 by
        rw [doubleChars_length, List.length_map, h3]; omega)]
    · rw [doubleChars_length, List.length_map, h3]
    · exact doubleChars_all _ hup
  · refine ⟨(hexBody s.toList).map jsToUpper, ?_, ?_, ?_⟩
    · unfold hexPad hexExpand3
      rw [if_neg (show ¬ ((hexBody s.toList).map jsToUpper).length = 3 by
        rw [List.length_map, h6]; omega)]
      rw [if_neg (show ¬ ((hexBody s.toList).map jsToUpper).length < 6 by
        rw [List.length_map, h6]; omega)]
    · rw [List.length_map]; exact h6
    · exact hup

theorem normalizeHexRGB_fixed (b : List Char) (hlen : b.length = 6)
    (hall : b.all isHexUpperDigit = true) :
    normalizeHexRGB (String.mk ('#' :: b)) = Except.ok (String.mk ('#' :: b)) := by
  have hlist : (String.mk ('#' :: b)).toList = '#' :: b := rfl
  have hns : ∀ c ∈ '#' :: b, isJsSpace c = false := by
    intro c hc
    rcases List.mem_cons.mp hc with h1 | h1
    · subst h1; exact isJsSpace_hash
    · exact isJsSpace_false_of_isHexUpperDigit c (List.all_eq_true.mp hall c h1)
  have htrim : jsTrim ('#' :: b) = '#' :: b := jsTrim_eq_self _ hns
  have hmap : ('#' :: b).map jsToUpper = '#' :: b := by
    rw [List.map_cons, jsToUpper_hash, map_jsToUpper_eq_self b hall]
  have hbody : hexBody ('#' :: b) = b := by
    simp [hexBody]
  have hpt : hexPatternTest ((jsTrim ('#' :: b)).map jsToUpper) = true := by
    rw [htrim, hmap]
    unfold hexPatternTest
    rw [hbody, hlen, hall]
    simp
  unfold normalizeHexRGB hexPad hexExpand3
  rw [hlist, htrim, hmap, if_pos (by rw [htrim, hmap] at hpt; exact hpt), hbody]
  rw [if_neg (by omega : ¬ b.length = 3)]
  rw [if_neg (by omega : ¬ b.length < 6)]

/-- C6: for every group id with no entry in the Group State Store,
isCollapsed fails with a programming-error signal (throws); for every group
id with an entry it returns that entry's collapsed boolean without modifying
the store. -/
theorem isCollapsed_spec (gs : GroupStates) (groupId : Nat) :
    (statesLookup groupId gs = none →
      isCollapsed gs groupId = (Except.error "Unexpected!", gs)) ∧
    (∀ b : Bool, statesLookup groupId gs = some b →
      isCollapsed gs groupId = (Except.ok b, gs)) := by
  constructor
  · intro h
    unfold isCollapsed
    rw [h]
  · intro b h
    unfold isCollapsed
    rw [h]

/-- Witness for C6 at the empty store and at a store holding group 2 collapsed. -/
theorem isCollapsed_spec_witness :
    isCollapsed [] 7 = (Except.error "Unexpected!", []) ∧
    isCollapsed [(2, true)] 2 = (Except.ok true, [(2, true)]) :=
  ⟨(isCollapsed_spec [] 7).1 (by decide),
   (isCollapsed_spec [(2, true)] 2).2 true (by decide)⟩

/-- C9: a group-created event in the current window adds a Group State Store
entry defaulting to expanded (false) only when the group id has no existing
entry; a present entry is left unchanged, so persisted collapsed state for a
re-reported group id survives the event. -/
theorem handleGroupCreated_spec (curWinId groupId : Nat) (gs : GroupStates) :
    (statesHasKey groupId gs = false →
      (handleGroupCreated curWinId curWinId groupId gs).1 = statesSet groupId false gs ∧
        statesLookup groupId (handleGroupCreated curWinId curWinId groupId gs).1 =
          some false) ∧
    (statesHasKey groupId gs = true →
      (handleGroupCreated curWinId curWinId groupId gs).1 = gs) := by
  unfold handleGroupCreated
  rw [if_neg (by omega : ¬ curWinId ≠ curWinId)]
  constructor
  · intro h
    rw [if_pos (by simp [h])]
    exact ⟨rfl, statesLookup_statesSet_self groupId false gs⟩
  · intro h
    rw [if_neg (by simp [h])]

/-- Witness for C9: fresh group id 4 gets an expanded entry; the persisted
collapsed entry for group 4 survives a repeated creation event. -/
theorem handleGroupCreated_spec_witness :
    ((handleGroupCreated 1 1 4 []).1 = [(4, false)] ∧
      statesLookup 4 (handleGroupCreated 1 1 4 []).1 = some false) ∧
    (handleGroupCreated 1 1 4 [(4, true)]).1 = [(4, true)] :=
  ⟨(handleGroupCreated_spec 1 4 []).1 (by decide),
   (handleGroupCreated_spec 1 4 [(4, true)]).2 (by decide)⟩

/-- C3 (code bug): the claim states that a group-removed event for the
current window removes the group id's entry from the Group State Store, but
the source guards the delete with the id being absent, so a present entry
survives: on the store holding group 5 the handler returns the store intact,
and in fact the handler never changes the store at all. -/
theorem handleGroupRemoved_keeps_entry :
    (handleGroupRemoved 1 1 5 [(5, false)]).1 = [(5, false)] ∧
      statesHasKey 5 (handleGroupRemoved 1 1 5 [(5, false)]).1 = true ∧
      ∀ (curWinId winId groupId : Nat) (gs : GroupStates),
        (handleGroupRemoved curWinId winId groupId gs).1 = gs := by
  refine ⟨by decide, by decide, ?_⟩
  intro curWinId winId groupId gs
  unfold handleGroupRemoved
  by_cases hw : winId ≠ curWinId
  · rw [if_pos hw]
  · rw [if_neg hw]
    by_cases hk : statesHasKey groupId gs = true
    · rw [if_neg (by simp [hk])]
    · rw [if_pos (by simpa using hk)]
      exact statesDelete_of_not_hasKey groupId gs (by simpa using hk)

theorem handleGroupDrop_fst (gid : Option Nat) (ids : List Nat) (fidx : Option Nat)
    (st : ReconState) :
    (handleGroupDrop gid ids fidx st).1 = { st with tabIdsInMove := ids } := by
  cases gid <;> cases fidx <;> rfl

/-- C2: a tab-moved event in the current window whose id is on the drag
engine's suppression list is consumed by removing exactly that id with no
re-render; after a group drop recording N tab ids, the N corresponding
moved-events are all swallowed (no re-render, list emptied); and a
subsequent moved-event for a tab not on the (now empty) list with the
global suppress flag clear schedules the debounced re-render. -/
theorem handleTabMoved_suppression_spec (curWinId : Nat) :
    (∀ (st : ReconState) (tabId : Nat), tabId ∈ st.tabIdsInMove →
      handleTabMoved curWinId curWinId tabId st =
        ({ st with tabIdsInMove := st.tabIdsInMove.erase tabId }, false)) ∧
    (∀ (gid : Option Nat) (ids : List Nat) (fidx : Option Nat) (st0 : ReconState),
      processMovedEvents curWinId ids (handleGroupDrop gid ids fidx st0).1 =
        ({ (handleGroupDrop gid ids fidx st0).1 with tabIdsInMove := [] }, 0)) ∧
    (∀ (st : ReconState) (tabId : Nat),
      st.tabIdsInMove = [] → st.suppressOnMoved = false →
      handleTabMoved curWinId curWinId tabId st = (st, true)) := by
  refine ⟨handleTabMoved_mem curWinId, ?_, ?_⟩
  · intro gid ids fidx st0
    rw [handleGroupDrop_fst]
    unfold processMovedEvents
    exact processMovedEvents_swallows_aux curWinId ids st0.suppressOnMoved 0
  · intro st tabId h1 h2
    unfold handleTabMoved
    rw [if_neg (by omega : ¬ curWinId ≠ curWinId)]
    rw [if_neg (by simp [h1])]
    rw [if_neg (by simp [h2])]

/-- Witness for C2: id 7 is swallowed from the list [7, 8]; the group drop
recording [4, 5] has both echo events swallowed with no re-render; the
unrelated event for id 9 afterwards schedules the re-render. -/
theorem handleTabMoved_suppression_spec_witness :
    handleTabMoved 1 1 7 { tabIdsInMove := [7, 8], suppressOnMoved := false } =
      ({ tabIdsInMove := [8], suppressOnMoved := false }, false) ∧
    processMovedEvents 1 [4, 5]
        (handleGroupDrop (some 3) [4, 5] (some 0)
          { tabIdsInMove := [], suppressOnMoved := false }).1 =
      ({ tabIdsInMove := [], suppressOnMoved := false }, 0) ∧
    handleTabMoved 1 1 9 { tabIdsInMove := [], suppressOnMoved := false } =
      ({ tabIdsInMove := [], suppressOnMoved := false }, true) := by
  refine ⟨?_, ?_, ?_⟩
  · exact ((handleTabMoved_suppression_spec 1).1
      { tabIdsInMove := [7, 8], suppressOnMoved := false } 7 (by decide)).trans (by decide)
  · exact ((handleTabMoved_suppression_spec 1).2.1 (some 3) [4, 5] (some 0)
      { tabIdsInMove := [], suppressOnMoved := false }).trans (by decide)
  · exact (handleTabMoved_suppression_spec 1).2.2
      { tabIdsInMove := [], suppressOnMoved := false } 9 rfl rfl

/-- C5 counterexample: committing a drop of tab 10 at its own current
position leaves the rendered order unchanged but still emits a browser
tab-move call targeting the unchanged index 0, falsifying the claim that no
no-op move call is issued. -/
theorem commitTabDrop_noop_counterexample :
    (commitTabDrop [10, 20] 10 (([10, 20] : List Nat).indexOf 10)).dom = [10, 20] ∧
    (commitTabDrop [10, 20] 10 (([10, 20] : List Nat).indexOf 10)).moves =
      [{ tabId := 10, index := 0 }] ∧
    ([10, 20] : List Nat).indexOf 10 = 0 := by decide

/-- C5 (amended): a committed single-tab drop at the tab's own current
position leaves the rendered order of tab lines unchanged, but the commit
emits exactly one (redundant) browser tab-move call targeting the tab's
unchanged index and sets the global suppress flag. -/
theorem commitTabDrop_own_position (dom : List Nat) (tabId : Nat)
    (h : tabId ∈ dom) :
    commitTabDrop dom tabId (dom.indexOf tabId) =
      { dom := dom,
        moves := [{ tabId := tabId, index := dom.indexOf tabId }],
        suppressOnMoved := true } := by
  unfold commitTabDrop
  rw [insertAt_indexOf_erase dom h]

/-- Witness for C5 at a three-tab list with tab 20 dropped onto itself. -/
theorem commitTabDrop_own_position_witness :
    commitTabDrop [10, 20, 30] 20 (([10, 20, 30] : List Nat).indexOf 20) =
      { dom := [10, 20, 30], moves := [{ tabId := 20, index := 1 }],
        suppressOnMoved := true } :=
  (commitTabDrop_own_position [10, 20, 30] 20 (by decide)).trans (by decide)

/-- C8: when two keyboard events with identical timestamps reach the
container navigation listener with focus inside the container, the second
one is recognized through the recorded last timestamp and dropped with no
action at all, the recorded timestamp staying as it is. -/
theorem duplicate_keydown_dropped (lastTimestamp : Nat)
    (dom1 dom2 : NavDomSnapshot) (e1 e2 : NavKeyEvent)
    (h1 : dom1.activeInContainer = true) (h2 : dom2.activeInContainer = true)
    (hts : e2.timeStamp = e1.timeStamp) :
    handleNavKeydown (handleNavKeydown lastTimestamp dom1 e1).1 dom2 e2 =
      ((handleNavKeydown lastTimestamp dom1 e1).1, []) := by
  have hfst : (handleNavKeydown lastTimestamp dom1 e1).1 = e1.timeStamp := by
    unfold handleNavKeydown
    rw [if_neg (by simp [h1])]
    by_cases hdup : lastTimestamp = e1.timeStamp
    · rw [if_pos hdup]
      exact hdup
    · rw [if_neg hdup]
  rw [hfst]
  unfold handleNavKeydown
  rw [if_neg (by simp [h2])]
  rw [if_pos hts.symm]

/-- Witness for C8: an ArrowRight event at timestamp 5 followed by a
duplicate-timestamp ArrowDown event; the duplicate produces no actions. -/
theorem duplicate_keydown_dropped_witness :
    handleNavKeydown
        (handleNavKeydown 0
          { activeInContainer := true, activeTabLine := some 1,
            faviconAncestorWithTabindex := false, lineHasFirstOption := true,
            currentOpenTabLine := none, activeOptionLine := none,
            activeHasFaviconChild := false, focusablesCount := 3,
            activeFocusablesIdx := some 0 }
          { timeStamp := 5, key := "ArrowRight", shiftKey := false }).1
        { activeInContainer := true, activeTabLine := some 1,
          faviconAncestorWithTabindex := false, lineHasFirstOption := true,
          currentOpenTabLine := none, activeOptionLine := none,
          activeHasFaviconChild := false, focusablesCount := 3,
          activeFocusablesIdx := some 0 }
        { timeStamp := 5, key := "ArrowDown", shiftKey := true } =
      ((handleNavKeydown 0
          { activeInContainer := true, activeTabLine := some 1,
            faviconAncestorWithTabindex := false, lineHasFirstOption := true,
            currentOpenTabLine := none, activeOptionLine := none,
            activeHasFaviconChild := false, focusablesCount := 3,
            activeFocusablesIdx := some 0 }
          { timeStamp := 5, key := "ArrowRight", shiftKey := false }).1, []) :=
  duplicate_keydown_dropped 0 _ _ _ _ rfl rfl rfl

/-- C4 counterexample: for a group content of natural scroll height 50 with
a focusable child line, collapsing then expanding sets the content's
max-height to "150px" (scroll height plus the 100px margin), which is not
the natural scroll height "50px"; this falsifies the claim that the
round-trip restores max-height to the natural scroll height. -/
theorem fold_round_trip_counterexample :
    (expandGroup
        (collapseGroup []
          { collapsedClass := false,
            content := { maxHeight := "", scrollHeight := 50,
                         tabLines := [{ tabindexAttr := "0" }] } } 1).1
        (collapseGroup []
          { collapsedClass := false,
            content := { maxHeight := "", scrollHeight := 50,
                         tabLines := [{ tabindexAttr := "0" }] } } 1).2
        1).2.content.maxHeight = "150px" ∧
    ("150px" : String) ≠ "50px" ∧
    toString (50 : Nat) ++ "px" = "50px" := by decide

/-- C4 (amended): collapsing then expanding a group sets the content
element's max-height to its natural scroll height plus the source's fixed
100px margin, restores every child tab line's tabindex to "0", leaves the
natural scroll height unchanged, removes the collapsed class, and records
the group expanded. -/
theorem collapse_expand_spec (gs : GroupStates) (gc : GroupContainerEl) (groupId : Nat) :
    (expandGroup (collapseGroup gs gc groupId).1 (collapseGroup gs gc groupId).2
        groupId).2.content.maxHeight =
      toString (gc.content.scrollHeight + 100) ++ "px" ∧
    (∀ tl ∈ (expandGroup (collapseGroup gs gc groupId).1
        (collapseGroup gs gc groupId).2 groupId).2.content.tabLines,
      tl.tabindexAttr = "0") ∧
    (expandGroup (collapseGroup gs gc groupId).1 (collapseGroup gs gc groupId).2
        groupId).2.content.scrollHeight = gc.content.scrollHeight ∧
    (expandGroup (collapseGroup gs gc groupId).1 (collapseGroup gs gc groupId).2
        groupId).2.collapsedClass = false ∧
    statesLookup groupId (expandGroup (collapseGroup gs gc groupId).1
        (collapseGroup gs gc groupId).2 groupId).1 = some false := by
  refine ⟨rfl, ?_, rfl, rfl, ?_⟩
  · intro tl htl
    unfold expandGroup collapseGroup at htl
    simp only at htl
    rcases List.mem_map.mp htl with ⟨x, _, hx⟩
    rw [hx.symm]
  · unfold expandGroup collapseGroup
    simp only
    exact statesLookup_statesSet_self groupId false (statesSet groupId true gs)

/-- Witness for C4 at scroll height 80 with one child line. -/
theorem collapse_expand_spec_witness :
    (expandGroup
        (collapseGroup []
          { collapsedClass := false,
            content := { maxHeight := "", scrollHeight := 80,
                         tabLines := [{ tabindexAttr := "-1" }] } } 2).1
        (collapseGroup []
          { collapsedClass := false,
            content := { maxHeight := "", scrollHeight := 80,
                         tabLines := [{ tabindexAttr := "-1" }] } } 2).2
        2).2.content.maxHeight = "180px" ∧
    ({ tabindexAttr := "0" } : TabLineEl).tabindexAttr = "0" := by
  constructor
  · exact (collapse_expand_spec []
      { collapsedClass := false,
        content := { maxHeight := "", scrollHeight := 80,
                     tabLines := [{ tabindexAttr := "-1" }] } } 2).1.trans (by decide)
  · exact (collapse_expand_spec []
      { collapsedClass := false,
        content := { maxHeight := "", scrollHeight := 80,
                     tabLines := [{ tabindexAttr := "-1" }] } } 2).2.1
      { tabindexAttr := "0" } (by decide)

/-- C1: for every list container and every sequence of structural DOM
operations (append, insert-before, remove), after invoking updateDomIndices
every tab line carries a position index equal to its zero-based document
order among tab lines, every group header carries tabindex "0", and a second
invocation on the unchanged container changes nothing. -/
theorem updateDomIndices_spec (init : List DomElem) (ops : List DomOp) :
    (∀ (i : Nat) (el : DomElem),
      (updateDomIndices (applyOps init ops)).get? i = some el →
      el.kind = ElemKind.tabLine →
      el.dataTabIndex =
        some (toString
          (((updateDomIndices (applyOps init ops)).take i).countP isTabLine))) ∧
    (∀ el ∈ updateDomIndices (applyOps init ops),
      el.kind = ElemKind.groupHeader → el.tabindexAttr = some "0") ∧
    updateDomIndices (updateDomIndices (applyOps init ops)) =
      updateDomIndices (applyOps init ops) :=
  ⟨updateDomIndices_get? (applyOps init ops),
   updateDomIndices_headers (applyOps init ops),
   updateDomIndices_idem (applyOps init ops)⟩

/-- Witness for C1: a header followed by a tab line, with a second tab line
appended; the second tab line is stamped "1" (one tab line precedes it), the
header carries tabindex "0", and re-running the utility changes nothing. -/
theorem updateDomIndices_spec_witness :
    ({ kind := ElemKind.tabLine, dataTabIndex := some "1", tabindexAttr := none }
        : DomElem).dataTabIndex =
      some (toString (((updateDomIndices (applyOps
        [{ kind := ElemKind.groupHeader, dataTabIndex := none, tabindexAttr := none },
         { kind := ElemKind.tabLine, dataTabIndex := none, tabindexAttr := none }]
        [DomOp.append
          { kind := ElemKind.tabLine, dataTabIndex := some "9", tabindexAttr := none }])).take
          2).countP isTabLine)) ∧
    ({ kind := ElemKind.groupHeader, dataTabIndex := none, tabindexAttr := some "0" }
        : DomElem).tabindexAttr = some "0" ∧
    updateDomIndices (updateDomIndices (applyOps
        [{ kind := ElemKind.groupHeader, dataTabIndex := none, tabindexAttr := none },
         { kind := ElemKind.tabLine, dataTabIndex := none, tabindexAttr := none }]
        [DomOp.append
          { kind := ElemKind.tabLine, dataTabIndex := some "9", tabindexAttr := none }])) =
      updateDomIndices (applyOps
        [{ kind := ElemKind.groupHeader, dataTabIndex := none, tabindexAttr := none },
         { kind := ElemKind.tabLine, dataTabIndex := none, tabindexAttr := none }]
        [DomOp.append
          { kind := ElemKind.tabLine, dataTabIndex := some "9", tabindexAttr := none }]) := by
  refine ⟨?_, ?_, ?_⟩
  · exact (updateDomIndices_spec
      [{ kind := ElemKind.groupHeader, dataTabIndex := none, tabindexAttr := none },
       { kind := ElemKind.tabLine, dataTabIndex := none, tabindexAttr := none }]
      [DomOp.append
        { kind := ElemKind.tabLine, dataTabIndex := some "9", tabindexAttr := none }]).1
      2 _ (by decide) (by decide)
  · exact (updateDomIndices_spec
      [{ kind := ElemKind.groupHeader, dataTabIndex := none, tabindexAttr := none },
       { kind := ElemKind.tabLine, dataTabIndex := none, tabindexAttr := none }]
      [DomOp.append
        { kind := ElemKind.tabLine, dataTabIndex := some "9", tabindexAttr := none }]).2.1
      _ (by decide) (by decide)
  · exact (updateDomIndices_spec
      [{ kind := ElemKind.groupHeader, dataTabIndex := none, tabindexAttr := none },
       { kind := ElemKind.tabLine, dataTabIndex := none, tabindexAttr := none }]
      [DomOp.append
        { kind := ElemKind.tabLine, dataTabIndex := some "9", tabindexAttr := none }]).2.2

/-- C7 counterexample: the input " abc" (leading space) is not a 3- or
6-digit hex RGB string with optional leading '#', yet normalizeHexRGB trims
it first and returns "#AABBCC" instead of failing, falsifying the universal
invalid-input clause of the claim as stated. -/
theorem normalizeHexRGB_untrimmed_counterexample :
    isHexRGBString " abc" = false ∧
    normalizeHexRGB " abc" = Except.ok "#AABBCC" := ⟨by decide, rfl⟩

/-- C7 (amended): normalizeHexRGB maps "abc" to "#AABBCC" and "#FF0000" to
"#FF0000", and every input whose whitespace-trimmed form is not a 3- or
6-digit hex RGB string with optional leading '#' (such as "xyz", "12", "")
fails with a validation signal rather than returning a value. -/
theorem normalizeHexRGB_spec :
    normalizeHexRGB "abc" = Except.ok "#AABBCC" ∧
    normalizeHexRGB "#FF0000" = Except.ok "#FF0000" ∧
    ∀ s : String, isHexRGBString (String.mk (jsTrim s.toList)) = false →
      normalizeHexRGB s =
        Except.error "Input must be a valid hex RGB color (3 or 6 characters)" := by
  refine ⟨rfl, rfl, ?_⟩
  intro s h
  have hpt : hexPatternTest ((jsTrim s.toList).map jsToUpper) = false := by
    rw [hexPatternTest_map_jsToUpper]
    rw [isHexRGBString_mk] at h
    exact h
  simp only [normalizeHexRGB]
  rw [if_neg (by simpa using hpt)]

/-- Witness for C7 at the invalid inputs "xyz", "12" and "". -/
theorem normalizeHexRGB_spec_witness :
    normalizeHexRGB "xyz" =
      Except.error "Input must be a valid hex RGB color (3 or 6 characters)" ∧
    normalizeHexRGB "12" =
      Except.error "Input must be a valid hex RGB color (3 or 6 characters)" ∧
    normalizeHexRGB "" =
      Except.error "Input must be a valid hex RGB color (3 or 6 characters)" :=
  ⟨normalizeHexRGB_spec.2.2 "xyz" (by decide),
   normalizeHexRGB_spec.2.2 "12" (by decide),
   normalizeHexRGB_spec.2.2 "" (by decide)⟩

/-- C10: normalizeHexRGB is idempotent on accepted inputs: every string
matching the 3- or 6-digit hex RGB pattern with optional leading '#' is
accepted without a validation error, and normalizing the returned value
again returns it unchanged. -/
theorem normalizeHexRGB_idempotent (s : String) (h : isHexRGBString s = true) :
    ∃ r : String, normalizeHexRGB s = Except.ok r ∧
      normalizeHexRGB r = Except.ok r := by
  rcases normalizeHexRGB_ok_shape s h with ⟨b, hok, hlen, hall⟩
  exact ⟨String.mk ('#' :: b), hok, normalizeHexRGB_fixed b hlen hall⟩

/-- Witness for C10 at the accepted input "abc". -/
theorem normalizeHexRGB_idempotent_witness :
    normalizeHexRGB "abc" = Except.ok "#AABBCC" ∧
    normalizeHexRGB "#AABBCC" = Except.ok "#AABBCC" := by
  rcases normalizeHexRGB_idempotent "abc" (by decide) with ⟨r, h1, h2⟩
  have hcomp : (Except.ok "#AABBCC" : Except String String) = Except.ok r := h1
  injection hcomp with hx
  rw [hx.symm] at h1 h2
  exact ⟨h1, h2⟩
